import Mathlib

/-!
Verification development for the `mitmflow` mitmproxy addon
(`grpc_addon.py`): a shallow embedding of the event normalization and
streaming export pipeline, with theorems about its specified properties.

Conventions of the embedding:
* Python `float` timestamps are modelled as exact rationals (`ℚ`).
* Python `bytes` are modelled as `List Nat` (byte values).
* Python `str` values that may carry arbitrary code points (header values
  decoded by mitmproxy with surrogateescape) are modelled as `List Nat`
  of Unicode code points (< 0x110000, surrogates allowed).
* Python truthiness guards (`if x:`) are modelled faithfully: `None` and
  the empty/zero value of the respective type are falsy.
* Fallible Python code (code that can raise) returns `Option`.
-/

namespace Mitmflow

/-! ## Protobuf enumerations (mitmflow_pb2) -/

/-- The `TLSVersion` protobuf enumeration values assigned by the addon. -/
inductive TLSVersion where
  | tlsV1_3
  | tlsV1_2
  | tlsV1_1
  | tlsV1
  | sslV3
deriving DecidableEq, Repr

/-- The `ConnectionState` protobuf enumeration (only `OPEN` is ever assigned). -/
inductive ConnectionState where
  | open_
deriving DecidableEq, Repr

/-- The `TransportProtocol` protobuf enumeration (only `TCP` is ever assigned). -/
inductive TransportProtocol where
  | tcp
deriving DecidableEq, Repr

/-! ## Source-side connection objects (mitmproxy.connection) -/

/-- The fields of `mitmproxy.connection.Client` read by `_to_grpc_client_conn`. -/
structure ClientConnSrc where
  peername : Option (String × Nat)
  sockname : Option (String × Nat)
  id : String
  error : Option String
  tlsEstablished : Bool
  alpn : Option String
  cipherList : List String
  tlsVersion : Option String
  sni : Option String
  timestampStart : Option ℚ
  timestampEnd : Option ℚ
  timestampTlsSetup : Option ℚ
  proxyMode : Option String
deriving DecidableEq, Repr

/-- The fields of `mitmproxy.connection.Server` read by `_to_grpc_server_conn`. -/
structure ServerConnSrc where
  peername : Option (String × Nat)
  sockname : Option (String × Nat)
  id : String
  error : Option String
  tlsEstablished : Bool
  alpn : Option String
  cipherList : List String
  tlsVersion : Option String
  sni : Option String
  timestampStart : Option ℚ
  timestampEnd : Option ℚ
  timestampTlsSetup : Option ℚ
  address : Option (String × Nat)
  timestampTcpSetup : Option ℚ
deriving DecidableEq, Repr

/-! ## Truthiness helpers -/

/-- Python truthiness for an optional string (`None` and `""` are falsy). -/
def pyTruthyStr : Option String → Option String
  | some s => if s = "" then none else some s
  | none => none

/-- Python truthiness for an optional float timestamp (`None` and `0.0` are falsy). -/
def pyTruthyTime : Option ℚ → Option ℚ
  | some t => if t = 0 then none else some t
  | none => none

/-! ## grpc connection messages (mitmflow_pb2.ClientConn / ServerConn)

Conditionally assigned proto fields are modelled as `Option` (unset = `none`);
unconditionally assigned fields are plain. -/

structure ClientConnG where
  peername : Option (String × Nat)
  sockname : Option (String × Nat)
  state : ConnectionState
  id : String
  transportProtocol : TransportProtocol
  error : Option String
  tls : Bool
  alpn : Option String
  cipher : Option String
  tlsVersion : Option TLSVersion
  sni : Option String
  timestampStart : Option ℚ
  timestampEnd : Option ℚ
  timestampTlsSetup : Option ℚ
  proxyMode : String
deriving DecidableEq, Repr

structure ServerConnG where
  peername : Option (String × Nat)
  sockname : Option (String × Nat)
  state : ConnectionState
  id : String
  transportProtocol : TransportProtocol
  error : Option String
  tls : Bool
  alpn : Option String
  cipher : Option String
  tlsVersion : Option TLSVersion
  sni : Option String
  timestampStart : Option ℚ
  timestampEnd : Option ℚ
  timestampTlsSetup : Option ℚ
  address : Option (String × Nat)
  timestampTcpSetup : Option ℚ
deriving DecidableEq, Repr

/-- The inline TLS-version mapping chain shared by `_to_grpc_client_conn`
and `_to_grpc_server_conn` (lines 34-45 and 80-91): guarded by Python
truthiness of `conn.tls_version`, then an if/elif chain over the five
known strings with no else branch (field left unset otherwise). -/
def mapTlsVersionStr (v : Option String) : Option TLSVersion :=
  match v with
  | none => none
  | some s =>
    if s = "" then none
    else if s = "TLSv1.3" then some .tlsV1_3
    else if s = "TLSv1.2" then some .tlsV1_2
    else if s = "TLSv1.1" then some .tlsV1_1
    else if s = "TLSv1" then some .tlsV1
    else if s = "SSLv3" then some .sslV3
    else none

/-- Embedding of `_to_grpc_client_conn` (grpc_addon.py lines 12-56). -/
def toGrpcClientConn (conn : ClientConnSrc) : ClientConnG :=
  { peername := conn.peername
    sockname := conn.sockname
    state := ConnectionState.open_
    id := conn.id
    transportProtocol := TransportProtocol.tcp
    error := pyTruthyStr conn.error
    tls := conn.tlsEstablished
    alpn := pyTruthyStr conn.alpn
    cipher := if conn.cipherList = [] then none
              else some (String.intercalate "," conn.cipherList)
    tlsVersion := mapTlsVersionStr conn.tlsVersion
    sni := pyTruthyStr conn.sni
    timestampStart := pyTruthyTime conn.timestampStart
    timestampEnd := pyTruthyTime conn.timestampEnd
    timestampTlsSetup := pyTruthyTime conn.timestampTlsSetup
    proxyMode := match conn.proxyMode with
      | some m => if m = "" then "" else m
      | none => "" }

/-- Embedding of `_to_grpc_server_conn` (grpc_addon.py lines 58-106). -/
def toGrpcServerConn (conn : ServerConnSrc) : ServerConnG :=
  { peername := conn.peername
    sockname := conn.sockname
    state := ConnectionState.open_
    id := conn.id
    transportProtocol := TransportProtocol.tcp
    error := pyTruthyStr conn.error
    tls := conn.tlsEstablished
    alpn := pyTruthyStr conn.alpn
    cipher := if conn.cipherList = [] then none
              else some (String.intercalate "," conn.cipherList)
    tlsVersion := mapTlsVersionStr conn.tlsVersion
    sni := pyTruthyStr conn.sni
    timestampStart := pyTruthyTime conn.timestampStart
    timestampEnd := pyTruthyTime conn.timestampEnd
    timestampTlsSetup := pyTruthyTime conn.timestampTlsSetup
    address := conn.address
    timestampTcpSetup := pyTruthyTime conn.timestampTcpSetup }

/-! ## Event filter (MitmFlowAddon._is_event_enabled and friends) -/

/-- The `allowed_events` vocabulary of `MitmFlowAddon.__init__`
(grpc_addon.py lines 295-302). -/
def allowedEvents : List String :=
  ["all", "requestheaders", "response", "responseheaders", "error",
   "http_connect", "http_connect_upstream", "http_connected", "http_connect_error",
   "dns_request", "dns_response", "dns_error",
   "tcp_start", "tcp_message", "tcp_end", "tcp_error",
   "udp_start", "udp_message", "udp_end", "udp_error",
   "websocket_start", "websocket_message", "websocket_end"]

/-- Embedding of `MitmFlowAddon._is_event_enabled` (grpc_addon.py lines 337-338):
`"all" in self.event_types or event_type in self.event_types`. -/
def isEventEnabled (eventTypes : List String) (eventType : String) : Bool :=
  eventTypes.contains "all" || eventTypes.contains eventType

/-- Python `str.split(',')`: split on every comma, preserving empty
segments (the split of `""` is `[""]`). -/
def splitOnComma : List Char → List (List Char)
  | [] => [[]]
  | c :: rest =>
    if c = ',' then [] :: splitOnComma rest
    else
      match splitOnComma rest with
      | w :: ws => (c :: w) :: ws
      | [] => [[c]]

/-- Python whitespace as stripped by `str.strip()`. -/
def isPySpace (c : Char) : Bool :=
  c = ' ' || c = '\t' || c = '\n' || c = '\r' || c = '\x0b' || c = '\x0c'

/-- Python `str.strip()`: drop leading and trailing whitespace. -/
def pyStrip (s : List Char) : List Char :=
  ((s.dropWhile isPySpace).reverse.dropWhile isPySpace).reverse

/-- Embedding of `MitmFlowAddon._update_events` (grpc_addon.py lines 327-335):
split the option string on commas, strip each entry, keep the entries in
`allowed_events` (invalid entries are logged as a warning and excluded). -/
def updateEvents (optionValue : String) : List String :=
  (((splitOnComma optionValue.toList).map
      (fun w => String.mk (pyStrip w)))).filter
    (fun e => allowedEvents.contains e)

/-- Default of the `grpc_addr` option (grpc_addon.py line 308). -/
def grpcAddrDefault : String := "http://127.0.0.1:50051"

/-- Default of the `grpc_events` option (grpc_addon.py line 314). -/
def grpcEventsDefault : String := "all"

/-! ## Header/trailer value sanitization

The addon sanitizes header and trailer values with
`v.encode('utf-8', 'replace').decode('utf-8')`. A Python `str` is a
sequence of code points `< 0x110000` that may contain lone surrogates
(mitmproxy decodes header bytes with surrogateescape). `encode` with the
`replace` handler emits standard UTF-8 for every encodable code point and
the byte `0x3F` (`?`) for each unencodable one (exactly the surrogates);
the subsequent strict `decode` parses the byte string back, raising on
invalid UTF-8 (modelled as `none`). -/

/-- Code points in the surrogate range are not encodable in UTF-8. -/
def isSurrogate (c : Nat) : Bool := 0xD800 ≤ c && c < 0xE000

/-- UTF-8 encoding of one code point under the `replace` error handler:
surrogates become the single byte `0x3F` (`?`). -/
def utf8EncodeCharReplace (c : Nat) : List Nat :=
  if c < 0x80 then [c]
  else if c < 0x800 then [0xC0 + c / 0x40, 0x80 + c % 0x40]
  else if c < 0x10000 then
    if isSurrogate c then [0x3F]
    else [0xE0 + c / 0x1000, 0x80 + (c / 0x40) % 0x40, 0x80 + c % 0x40]
  else [0xF0 + c / 0x40000, 0x80 + (c / 0x1000) % 0x40,
        0x80 + (c / 0x40) % 0x40, 0x80 + c % 0x40]

/-- `str.encode('utf-8', 'replace')` over a list of code points. -/
def utf8EncodeReplace : List Nat → List Nat
  | [] => []
  | c :: rest => utf8EncodeCharReplace c ++ utf8EncodeReplace rest

/-- A byte is a UTF-8 continuation byte. -/
def isCont (b : Nat) : Bool := 0x80 ≤ b && b < 0xC0

/-- Decoder state: either at a character boundary, or inside a multi-byte
sequence with `need` continuation bytes still expected, the value
accumulated so far, and the smallest admissible final code point (for the
overlong-encoding check). -/
inductive Utf8State where
  | boundary
  | pending (need acc lo : Nat)
deriving DecidableEq, Repr

/-- Byte-at-a-time strict UTF-8 decoding: lead bytes `0xC0`/`0xC1` and
`≥ 0xF5` are invalid, a finished sequence must reach its minimal value
(no overlong forms), must not land in the surrogate range, and must stay
below `0x110000`; a truncated trailing sequence is invalid. -/
def utf8DecAux : List Nat → Utf8State → Option (List Nat)
  | [], Utf8State.boundary => some []
  | [], Utf8State.pending _ _ _ => none
  | b :: rest, Utf8State.boundary =>
    if b < 0x80 then
      (utf8DecAux rest Utf8State.boundary).map (fun cs => b :: cs)
    else if b < 0xC2 then none
    else if b < 0xE0 then utf8DecAux rest (Utf8State.pending 1 (b - 0xC0) 0x80)
    else if b < 0xF0 then utf8DecAux rest (Utf8State.pending 2 (b - 0xE0) 0x800)
    else if b < 0xF5 then
      utf8DecAux rest (Utf8State.pending 3 (b - 0xF0) 0x10000)
    else none
  | b :: rest, Utf8State.pending need acc lo =>
    if isCont b then
      if need = 1 then
        if lo ≤ acc * 0x40 + (b - 0x80) ∧ acc * 0x40 + (b - 0x80) < 0x110000 ∧
            isSurrogate (acc * 0x40 + (b - 0x80)) = false then
          (utf8DecAux rest Utf8State.boundary).map
            (fun cs => (acc * 0x40 + (b - 0x80)) :: cs)
        else none
      else
        utf8DecAux rest
          (Utf8State.pending (need - 1) (acc * 0x40 + (b - 0x80)) lo)
    else none

/-- `bytes.decode('utf-8')` (strict): parse a byte list as UTF-8,
rejecting truncated sequences, invalid lead/continuation bytes, overlong
encodings, encoded surrogates and code points above `0x10FFFF`. -/
def utf8DecodeStrict (bs : List Nat) : Option (List Nat) :=
  utf8DecAux bs Utf8State.boundary

/-- Embedding of `v.encode('utf-8', 'replace').decode('utf-8')`
(grpc_addon.py lines 121, 126, 137, 142). -/
def sanitizeValue (v : List Nat) : Option (List Nat) :=
  utf8DecodeStrict (utf8EncodeReplace v)

/-- Sanitize every value of a header/trailer association list. -/
def sanitizePairs (hs : List (String × List Nat)) :
    Option (List (String × List Nat)) :=
  hs.mapM (fun kv => (sanitizeValue kv.2).map (fun v => (kv.1, v)))

/-! ## HTTP flow normalization (to_grpc_flow) -/

/-- The fields of `mitmproxy.http.Request` read by `to_grpc_flow`. -/
structure HTTPRequestSrc where
  method : String
  url : String
  prettyUrl : String
  httpVersion : String
  timestampStart : ℚ
  timestampEnd : Option ℚ
  headers : List (String × List Nat)
  content : Option (List Nat)
  trailers : Option (List (String × List Nat))
deriving DecidableEq, Repr

/-- The fields of `mitmproxy.http.Response` read by `to_grpc_flow`. -/
structure HTTPResponseSrc where
  statusCode : Nat
  reason : String
  httpVersion : String
  timestampStart : ℚ
  timestampEnd : Option ℚ
  headers : List (String × List Nat)
  content : Option (List Nat)
  trailers : Option (List (String × List Nat))
deriving DecidableEq, Repr

/-- One `mitmproxy` WebSocket message. -/
structure WebSocketMessageSrc where
  content : List Nat
  timestamp : ℚ
  fromClient : Bool
deriving DecidableEq, Repr

/-- The `mitmproxy` WebSocket data attached to an upgraded HTTP flow. -/
structure WebSocketDataSrc where
  messages : List WebSocketMessageSrc
deriving DecidableEq, Repr

/-- The fields of `mitmproxy.http.HTTPFlow` read by `to_grpc_flow`. -/
structure HTTPFlowSrc where
  id : String
  request : HTTPRequestSrc
  response : Option HTTPResponseSrc
  timestampStart : ℚ
  clientConn : Option ClientConnSrc
  serverConn : Option ServerConnSrc
  error : Option String
  live : Bool
  websocket : Option WebSocketDataSrc
deriving DecidableEq, Repr

/-- grpc `HTTPRequest` message as assigned by `to_grpc_flow`. -/
structure HTTPRequestG where
  method : String
  url : String
  prettyUrl : String
  httpVersion : String
  timestampStart : ℚ
  timestampEnd : Option ℚ
  headers : List (String × List Nat)
  content : Option (List Nat)
  trailers : List (String × List Nat)
deriving DecidableEq, Repr

/-- grpc `HTTPResponse` message as assigned by `to_grpc_flow`. -/
structure HTTPResponseG where
  statusCode : Nat
  reason : String
  httpVersion : String
  timestampStart : ℚ
  timestampEnd : Option ℚ
  headers : List (String × List Nat)
  content : Option (List Nat)
  trailers : List (String × List Nat)
deriving DecidableEq, Repr

/-- grpc `WebSocketMessage` message. -/
structure WebSocketMessageG where
  content : List Nat
  timestamp : ℚ
  fromClient : Bool
deriving DecidableEq, Repr

/-- grpc `HTTPFlow` message as assigned by `to_grpc_flow`. -/
structure HTTPFlowG where
  id : String
  request : HTTPRequestG
  response : Option HTTPResponseG
  timestampStart : ℚ
  durationMs : Option ℚ
  client : Option ClientConnG
  server : Option ServerConnG
  error : Option String
  live : Bool
  isWebsocket : Bool
  websocketMessages : List WebSocketMessageG
deriving DecidableEq, Repr

/-- The request part of `to_grpc_flow` (grpc_addon.py lines 113-126). -/
def toGrpcRequest (r : HTTPRequestSrc) : Option HTTPRequestG :=
  (sanitizePairs r.headers).bind fun hs =>
  (match r.trailers with
    | some ts => if ts = [] then some [] else sanitizePairs ts
    | none => some []).map fun trs =>
  { method := r.method
    url := r.url
    prettyUrl := r.prettyUrl
    httpVersion := r.httpVersion
    timestampStart := r.timestampStart
    timestampEnd := pyTruthyTime r.timestampEnd
    headers := hs
    content := r.content
    trailers := trs }

/-- The response part of `to_grpc_flow` (grpc_addon.py lines 129-142). -/
def toGrpcResponse (r : HTTPResponseSrc) : Option HTTPResponseG :=
  (sanitizePairs r.headers).bind fun hs =>
  (match r.trailers with
    | some ts => if ts = [] then some [] else sanitizePairs ts
    | none => some []).map fun trs =>
  { statusCode := r.statusCode
    reason := r.reason
    httpVersion := r.httpVersion
    timestampStart := r.timestampStart
    timestampEnd := pyTruthyTime r.timestampEnd
    headers := hs
    content := r.content
    trailers := trs }

/-- Embedding of `to_grpc_flow` (grpc_addon.py lines 108-169). The
`duration_ms` assignment (lines 146-147) is guarded by Python truthiness
of `flow.response` and `flow.response.timestamp_end` and computes
`(flow.response.timestamp_end - flow.timestamp_start) * 1000`. -/
def toGrpcFlow (flow : HTTPFlowSrc) : Option HTTPFlowG :=
  (toGrpcRequest flow.request).bind fun req =>
  (match flow.response with
    | some r => (toGrpcResponse r).map some
    | none => some none).map fun resp =>
  { id := flow.id
    request := req
    response := resp
    timestampStart := flow.timestampStart
    durationMs :=
      match flow.response with
      | some r =>
        match pyTruthyTime r.timestampEnd with
        | some te => some ((te - flow.timestampStart) * 1000)
        | none => none
      | none => none
    client := flow.clientConn.map toGrpcClientConn
    server := flow.serverConn.map toGrpcServerConn
    error := flow.error
    live := flow.live
    isWebsocket := flow.websocket.isSome
    websocketMessages :=
      match flow.websocket with
      | some ws => ws.messages.map
          (fun (m : WebSocketMessageSrc) =>
            { content := m.content, timestamp := m.timestamp,
              fromClient := m.fromClient })
      | none => [] }

/-! ## TCP / UDP flow normalization (to_grpc_tcp_flow, to_grpc_udp_flow) -/

/-- One `mitmproxy` TCP/UDP message. -/
structure StreamMessageSrc where
  content : List Nat
  timestamp : ℚ
  fromClient : Bool
deriving DecidableEq, Repr

/-- The fields of `mitmproxy.tcp.TCPFlow` read by `to_grpc_tcp_flow`
(the `timestamp_end` attribute, probed with `hasattr`, is present on
mitmproxy flows). -/
structure TCPFlowSrc where
  id : String
  clientConn : Option ClientConnSrc
  serverConn : Option ServerConnSrc
  messages : List StreamMessageSrc
  timestampStart : ℚ
  timestampEnd : Option ℚ
  error : Option String
  live : Bool
deriving DecidableEq, Repr

/-- The fields of `mitmproxy.udp.UDPFlow` read by `to_grpc_udp_flow`. -/
structure UDPFlowSrc where
  id : String
  clientConn : Option ClientConnSrc
  serverConn : Option ServerConnSrc
  messages : List StreamMessageSrc
  timestampStart : ℚ
  timestampEnd : Option ℚ
  error : Option String
  live : Bool
deriving DecidableEq, Repr

/-- grpc `TCPMessage` / `UDPMessage` message. -/
structure StreamMessageG where
  content : List Nat
  timestamp : ℚ
  fromClient : Bool
deriving DecidableEq, Repr

/-- grpc `TCPFlow` message as assigned by `to_grpc_tcp_flow`. -/
structure TCPFlowG where
  id : String
  client : Option ClientConnG
  server : Option ServerConnG
  messages : List StreamMessageG
  timestampStart : ℚ
  durationMs : Option ℚ
  error : Option String
  live : Bool
deriving DecidableEq, Repr

/-- grpc `UDPFlow` message as assigned by `to_grpc_udp_flow`. -/
structure UDPFlowG where
  id : String
  client : Option ClientConnG
  server : Option ServerConnG
  messages : List StreamMessageG
  timestampStart : ℚ
  durationMs : Option ℚ
  error : Option String
  live : Bool
deriving DecidableEq, Repr

/-- Embedding of `to_grpc_tcp_flow` (grpc_addon.py lines 171-199); the
`duration_ms` assignment (lines 191-192) is guarded by truthiness of
`flow.timestamp_end`. -/
def toGrpcTcpFlow (flow : TCPFlowSrc) : TCPFlowG :=
  { id := flow.id
    client := flow.clientConn.map toGrpcClientConn
    server := flow.serverConn.map toGrpcServerConn
    messages := flow.messages.map
      (fun (m : StreamMessageSrc) =>
        { content := m.content, timestamp := m.timestamp,
          fromClient := m.fromClient })
    timestampStart := flow.timestampStart
    durationMs :=
      match pyTruthyTime flow.timestampEnd with
      | some te => some ((te - flow.timestampStart) * 1000)
      | none => none
    error := flow.error
    live := flow.live }

/-- Embedding of `to_grpc_udp_flow` (grpc_addon.py lines 201-229). -/
def toGrpcUdpFlow (flow : UDPFlowSrc) : UDPFlowG :=
  { id := flow.id
    client := flow.clientConn.map toGrpcClientConn
    server := flow.serverConn.map toGrpcServerConn
    messages := flow.messages.map
      (fun (m : StreamMessageSrc) =>
        { content := m.content, timestamp := m.timestamp,
          fromClient := m.fromClient })
    timestampStart := flow.timestampStart
    durationMs :=
      match pyTruthyTime flow.timestampEnd with
      | some te => some ((te - flow.timestampStart) * 1000)
      | none => none
    error := flow.error
    live := flow.live }

/-! ## DNS flow normalization (to_grpc_dns_flow) -/

/-- The fields of `mitmproxy.dns.Question` read by `_to_grpc_dns_question`.
The numeric type/class codes are converted to text by
`mitmproxy.net.dns.types.to_str` / `classes.to_str`, external library
functions modelled here as an abstract parameter carried as prerendered
text fields. -/
structure DNSQuestionSrc where
  name : String
  typeText : String
  classText : String
deriving DecidableEq, Repr

/-- The fields of `mitmproxy.dns.ResourceRecord` read by
`_to_grpc_dns_resource_record`, with type/class already rendered as text
(see `DNSQuestionSrc`). -/
structure DNSResourceRecordSrc where
  name : String
  typeText : String
  classText : String
  ttl : Nat
  data : List Nat
deriving DecidableEq, Repr

/-- The fields of `mitmproxy.dns.DNSMessage` read by `_to_grpc_dns_message`. -/
structure DNSMessageSrc where
  content : List Nat
  questions : List DNSQuestionSrc
  answers : List DNSResourceRecordSrc
  authorities : List DNSResourceRecordSrc
  additionals : List DNSResourceRecordSrc
  id : Nat
  query : Bool
  opCode : Nat
  authoritativeAnswer : Bool
deriving DecidableEq, Repr

/-- The fields of `mitmproxy.dns.DNSFlow` read by `to_grpc_dns_flow`. -/
structure DNSFlowSrc where
  id : String
  request : Option DNSMessageSrc
  response : Option DNSMessageSrc
  timestampStart : ℚ
  clientConn : Option ClientConnSrc
  serverConn : Option ServerConnSrc
  error : Option String
  live : Bool
deriving DecidableEq, Repr

/-- grpc `DNSQuestion` message. -/
structure DNSQuestionG where
  name : String
  typeText : String
  classText : String
deriving DecidableEq, Repr

/-- grpc `DNSResourceRecord` message. -/
structure DNSResourceRecordG where
  name : String
  typeText : String
  classText : String
  ttl : Nat
  data : List Nat
deriving DecidableEq, Repr

/-- grpc `DNSMessage` message as assigned by `_to_grpc_dns_message`. -/
structure DNSMessageG where
  packed : List Nat
  questions : List DNSQuestionG
  answers : List DNSResourceRecordG
  authorities : List DNSResourceRecordG
  additionals : List DNSResourceRecordG
  id : Nat
  query : Bool
  opCode : Nat
  authoritativeAnswer : Bool
deriving DecidableEq, Repr

/-- grpc `DNSFlow` message as assigned by `to_grpc_dns_flow`. Like the
other flow payloads the proto message carries an optional `duration_ms`
field (the shared Flow shape); `to_grpc_dns_flow` never assigns it. -/
structure DNSFlowG where
  id : String
  request : Option DNSMessageG
  response : Option DNSMessageG
  timestampStart : ℚ
  durationMs : Option ℚ
  client : Option ClientConnG
  server : Option ServerConnG
  error : Option String
  live : Bool
deriving DecidableEq, Repr

/-- Embedding of `_to_grpc_dns_question` (grpc_addon.py lines 231-237). -/
def toGrpcDnsQuestion (q : DNSQuestionSrc) : DNSQuestionG :=
  { name := q.name, typeText := q.typeText, classText := q.classText }

/-- Embedding of `_to_grpc_dns_resource_record` (grpc_addon.py lines 240-248). -/
def toGrpcDnsResourceRecord (rr : DNSResourceRecordSrc) : DNSResourceRecordG :=
  { name := rr.name, typeText := rr.typeText, classText := rr.classText,
    ttl := rr.ttl, data := rr.data }

/-- Embedding of `_to_grpc_dns_message` (grpc_addon.py lines 251-262). -/
def toGrpcDnsMessage (msg : DNSMessageSrc) : DNSMessageG :=
  { packed := msg.content
    questions := msg.questions.map toGrpcDnsQuestion
    answers := msg.answers.map toGrpcDnsResourceRecord
    authorities := msg.authorities.map toGrpcDnsResourceRecord
    additionals := msg.additionals.map toGrpcDnsResourceRecord
    id := msg.id
    query := msg.query
    opCode := msg.opCode
    authoritativeAnswer := msg.authoritativeAnswer }

/-- Embedding of `to_grpc_dns_flow` (grpc_addon.py lines 265-286): the
function assigns id, request, response, timestamp_start, connections,
error and live — and never touches `duration_ms`. -/
def toGrpcDnsFlow (flow : DNSFlowSrc) : DNSFlowG :=
  { id := flow.id
    request := flow.request.map toGrpcDnsMessage
    response := flow.response.map toGrpcDnsMessage
    timestampStart := flow.timestampStart
    durationMs := none
    client := flow.clientConn.map toGrpcClientConn
    server := flow.serverConn.map toGrpcServerConn
    error := flow.error
    live := flow.live }

/-! ## Addon state and event callbacks (MitmFlowAddon) -/

/-- The `EventType` protobuf enumeration values used by the callbacks. -/
inductive EventType where
  | requestheaders | response | responseheaders | error
  | httpConnect | httpConnectUpstream | httpConnected | httpConnectError
  | dnsRequest | dnsResponse | dnsError
  | tcpStart | tcpMessage | tcpEnd | tcpError
  | udpStart | udpMessage | udpEnd | udpError
  | websocketStart | websocketMessage | websocketEnd
deriving DecidableEq, Repr

/-- The `flow` oneof of `mitmflow_pb2.Flow`. -/
inductive FlowPayload where
  | httpFlow (f : HTTPFlowG)
  | dnsFlow (f : DNSFlowG)
  | tcpFlow (f : TCPFlowG)
  | udpFlow (f : UDPFlowG)
deriving DecidableEq, Repr

/-- A `mitmflow_pb2.ExportFlowRequest` envelope. -/
structure ExportFlowRequest where
  eventType : EventType
  flow : FlowPayload
deriving DecidableEq, Repr

/-- The addon state visible to the event callbacks: the configured
`event_types` list and the contents of `self.queue` (FIFO: enqueue at
the back). -/
structure AddonState where
  eventTypes : List String
  queue : List ExportFlowRequest
deriving DecidableEq, Repr

/-- Enqueue one request (`await self.queue.put(...)`). -/
def enqueue (st : AddonState) (req : ExportFlowRequest) : AddonState :=
  { st with queue := st.queue ++ [req] }

/-- Shared shape of the gated HTTP-flow callbacks (`requestheaders`,
`response`, ..., grpc_addon.py lines 357-419): return immediately when
the category is not enabled, otherwise normalize and enqueue.
`none` models an exception escaping the callback. -/
def httpCallback (name : String) (ety : EventType)
    (st : AddonState) (flow : HTTPFlowSrc) : Option AddonState :=
  if ¬ isEventEnabled st.eventTypes name then some st
  else (toGrpcFlow flow).map fun g =>
    enqueue st { eventType := ety, flow := FlowPayload.httpFlow g }

/-- Shared shape of the gated DNS-flow callbacks (lines 421-443). -/
def dnsCallback (name : String) (ety : EventType)
    (st : AddonState) (flow : DNSFlowSrc) : AddonState :=
  if ¬ isEventEnabled st.eventTypes name then st
  else enqueue st { eventType := ety, flow := FlowPayload.dnsFlow (toGrpcDnsFlow flow) }

/-- Shared shape of the gated TCP-flow callbacks (lines 445-475). -/
def tcpCallback (name : String) (ety : EventType)
    (st : AddonState) (flow : TCPFlowSrc) : AddonState :=
  if ¬ isEventEnabled st.eventTypes name then st
  else enqueue st { eventType := ety, flow := FlowPayload.tcpFlow (toGrpcTcpFlow flow) }

/-- Shared shape of the gated UDP-flow callbacks (lines 477-507). -/
def udpCallback (name : String) (ety : EventType)
    (st : AddonState) (flow : UDPFlowSrc) : AddonState :=
  if ¬ isEventEnabled st.eventTypes name then st
  else enqueue st { eventType := ety, flow := FlowPayload.udpFlow (toGrpcUdpFlow flow) }

/-- `MitmFlowAddon.requestheaders` (grpc_addon.py lines 357-363). -/
def requestheadersCb (st : AddonState) (flow : HTTPFlowSrc) : Option AddonState :=
  httpCallback "requestheaders" EventType.requestheaders st flow

/-- `MitmFlowAddon.response` (lines 365-371). -/
def responseCb (st : AddonState) (flow : HTTPFlowSrc) : Option AddonState :=
  httpCallback "response" EventType.response st flow

/-- `MitmFlowAddon.responseheaders` (lines 373-379). -/
def responseheadersCb (st : AddonState) (flow : HTTPFlowSrc) : Option AddonState :=
  httpCallback "responseheaders" EventType.responseheaders st flow

/-- `MitmFlowAddon.error` (lines 381-387). -/
def errorCb (st : AddonState) (flow : HTTPFlowSrc) : Option AddonState :=
  httpCallback "error" EventType.error st flow

/-- `MitmFlowAddon.http_connect` (lines 389-395). -/
def httpConnectCb (st : AddonState) (flow : HTTPFlowSrc) : Option AddonState :=
  httpCallback "http_connect" EventType.httpConnect st flow

/-- `MitmFlowAddon.http_connect_upstream` (lines 397-403). -/
def httpConnectUpstreamCb (st : AddonState) (flow : HTTPFlowSrc) : Option AddonState :=
  httpCallback "http_connect_upstream" EventType.httpConnectUpstream st flow

/-- `MitmFlowAddon.http_connected` (lines 405-411). -/
def httpConnectedCb (st : AddonState) (flow : HTTPFlowSrc) : Option AddonState :=
  httpCallback "http_connected" EventType.httpConnected st flow

/-- `MitmFlowAddon.http_connect_error` (lines 413-419). -/
def httpConnectErrorCb (st : AddonState) (flow : HTTPFlowSrc) : Option AddonState :=
  httpCallback "http_connect_error" EventType.httpConnectError st flow

/-- `MitmFlowAddon.dns_request` (lines 421-427). -/
def dnsRequestCb (st : AddonState) (flow : DNSFlowSrc) : AddonState :=
  dnsCallback "dns_request" EventType.dnsRequest st flow

/-- `MitmFlowAddon.dns_response` (lines 429-435). -/
def dnsResponseCb (st : AddonState) (flow : DNSFlowSrc) : AddonState :=
  dnsCallback "dns_response" EventType.dnsResponse st flow

/-- `MitmFlowAddon.dns_error` (lines 437-443). -/
def dnsErrorCb (st : AddonState) (flow : DNSFlowSrc) : AddonState :=
  dnsCallback "dns_error" EventType.dnsError st flow

/-- `MitmFlowAddon.tcp_start` (lines 445-451). -/
def tcpStartCb (st : AddonState) (flow : TCPFlowSrc) : AddonState :=
  tcpCallback "tcp_start" EventType.tcpStart st flow

/-- `MitmFlowAddon.tcp_message` (lines 453-459). -/
def tcpMessageCb (st : AddonState) (flow : TCPFlowSrc) : AddonState :=
  tcpCallback "tcp_message" EventType.tcpMessage st flow

/-- `MitmFlowAddon.tcp_end` (lines 461-467). -/
def tcpEndCb (st : AddonState) (flow : TCPFlowSrc) : AddonState :=
  tcpCallback "tcp_end" EventType.tcpEnd st flow

/-- `MitmFlowAddon.tcp_error` (lines 469-475). -/
def tcpErrorCb (st : AddonState) (flow : TCPFlowSrc) : AddonState :=
  tcpCallback "tcp_error" EventType.tcpError st flow

/-- `MitmFlowAddon.udp_start` (lines 477-483). -/
def udpStartCb (st : AddonState) (flow : UDPFlowSrc) : AddonState :=
  udpCallback "udp_start" EventType.udpStart st flow

/-- `MitmFlowAddon.udp_message` (lines 485-491). -/
def udpMessageCb (st : AddonState) (flow : UDPFlowSrc) : AddonState :=
  udpCallback "udp_message" EventType.udpMessage st flow

/-- `MitmFlowAddon.udp_end` (lines 493-499). -/
def udpEndCb (st : AddonState) (flow : UDPFlowSrc) : AddonState :=
  udpCallback "udp_end" EventType.udpEnd st flow

/-- `MitmFlowAddon.udp_error` (lines 501-507). -/
def udpErrorCb (st : AddonState) (flow : UDPFlowSrc) : AddonState :=
  udpCallback "udp_error" EventType.udpError st flow

/-- `MitmFlowAddon.websocket_start` (grpc_addon.py lines 536-540):
normalizes and enqueues unconditionally — the source contains no
`_is_event_enabled` gate in this callback. -/
def websocketStartCb (st : AddonState) (flow : HTTPFlowSrc) : Option AddonState :=
  (toGrpcFlow flow).map fun g =>
    enqueue st { eventType := EventType.websocketStart, flow := FlowPayload.httpFlow g }

/-- `MitmFlowAddon.websocket_message` (lines 542-546): no gate in the source. -/
def websocketMessageCb (st : AddonState) (flow : HTTPFlowSrc) : Option AddonState :=
  (toGrpcFlow flow).map fun g =>
    enqueue st { eventType := EventType.websocketMessage, flow := FlowPayload.httpFlow g }

/-- `MitmFlowAddon.websocket_end` (lines 548-552): no gate in the source. -/
def websocketEndCb (st : AddonState) (flow : HTTPFlowSrc) : Option AddonState :=
  (toGrpcFlow flow).map fun g =>
    enqueue st { eventType := EventType.websocketEnd, flow := FlowPayload.httpFlow g }

/-! ## The export task (MitmFlowAddon._export_flows) and shutdown (done)

The queue contents are modelled as the list of items in FIFO order, with
`none` as the terminal marker (`await self.queue.put(None)`). -/

/-- Embedding of the `flow_generator` coroutine (grpc_addon.py lines
341-346): dequeue until the terminal marker (`None`), yielding each
dequeued event in order; `break` on the marker. (On an empty queue the
coroutine suspends forever; the model returns the finite prefix yielded.) -/
def flowGenerator : List (Option ExportFlowRequest) → List ExportFlowRequest
  | [] => []
  | none :: _ => []
  | some e :: rest => e :: flowGenerator rest

/-- Actions observable from the outside of `_export_flows` and `done`. -/
inductive TraceAct where
  | send (e : ExportFlowRequest)
  | logError
  | sleep (seconds : Nat)
  | logResponse
  | taskComplete
  | closeTransport
deriving DecidableEq, Repr

/-- Outcome of one `self.flowclient.export_flow(flow_generator())` call:
the collector either rejects the attempt at open (before consuming the
request stream) or accepts and consumes the stream to the marker. -/
inductive Attempt where
  | reject
  | accept
deriving DecidableEq, Repr

/-- Embedding of the retry loop of `_export_flows` (grpc_addon.py lines
348-355), driven by a script of collector outcomes: on an exception log
the error and sleep 5 seconds before retrying with the queue intact; on
success send every queued event (in `flow_generator` order), log the
response and `break`. An exhausted script leaves the loop still running
(it has no other exit). -/
def exportLoop : List Attempt → List (Option ExportFlowRequest) → List TraceAct
  | [], _ => []
  | Attempt.reject :: rest, q =>
      TraceAct.logError :: TraceAct.sleep 5 :: exportLoop rest q
  | Attempt.accept :: _, q =>
      (flowGenerator q).map TraceAct.send ++ [TraceAct.logResponse]

/-- Embedding of `MitmFlowAddon.done` (grpc_addon.py lines 558-564) in
the successful-stream case: `await self.queue.put(None)` appends the
terminal marker to the pending queue, `await self.export_task` runs the
export task to completion, and only then `await self.flowclient.close()`
runs. The trace is the sequential composition of the three awaits. -/
def doneTrace (pending : List ExportFlowRequest) : List TraceAct :=
  exportLoop [Attempt.accept] (pending.map some ++ [none]) ++
    [TraceAct.taskComplete, TraceAct.closeTransport]

/-! ## Derived forms and concrete sample inputs used by the theorems -/

/-- The per-code-point effect of `encode('utf-8','replace')` followed by
strict `decode('utf-8')`: surrogates become `?`, everything else is kept. -/
def sanitizeChar (c : Nat) : Nat := if isSurrogate c then 0x3F else c

/-- A client connection whose negotiated TLS version string is unknown. -/
def sampleClientConn : ClientConnSrc :=
  { peername := none, sockname := none, id := "client-1", error := none,
    tlsEstablished := true, alpn := none, cipherList := [],
    tlsVersion := some "TLSv2", sni := none, timestampStart := none,
    timestampEnd := none, timestampTlsSetup := none, proxyMode := none }

/-- A minimal HTTP flow carrying WebSocket data. -/
def sampleWsHttpFlow : HTTPFlowSrc :=
  { id := "flow-ws"
    request := { method := "GET", url := "http://example.com/chat",
                 prettyUrl := "http://example.com/chat",
                 httpVersion := "HTTP/1.1", timestampStart := 1000,
                 timestampEnd := none, headers := [("Host", [101, 120])],
                 content := none, trailers := none }
    response := none
    timestampStart := 1000
    clientConn := none, serverConn := none, error := none, live := true
    websocket := some { messages := [] } }

/-- An addon state whose configured categories are exactly `{"response"}`. -/
def sampleGatedState : AddonState := { eventTypes := ["response"], queue := [] }

/-- An HTTP flow with start `1000 s` and response end `1002.5 s`
(the worked example of the spec). -/
def sampleDurationHttpFlow : HTTPFlowSrc :=
  { id := "flow-dur"
    request := { method := "GET", url := "http://example.com/",
                 prettyUrl := "http://example.com/",
                 httpVersion := "HTTP/1.1", timestampStart := 1000,
                 timestampEnd := none, headers := [], content := none,
                 trailers := none }
    response := some { statusCode := 200, reason := "OK",
                       httpVersion := "HTTP/1.1", timestampStart := 1002,
                       timestampEnd := some (2005 / 2), headers := [],
                       content := none, trailers := none }
    timestampStart := 1000
    clientConn := none, serverConn := none, error := none, live := false
    websocket := none }

/-- A TCP flow with start `1000 s` and end `1003 s`. -/
def sampleTcpFlow : TCPFlowSrc :=
  { id := "flow-tcp", clientConn := none, serverConn := none,
    messages := [], timestampStart := 1000, timestampEnd := some 1003,
    error := none, live := false }

/-- A TCP flow lasting half a millisecond: start `1000 s`,
end `1000 s + 1/2000 s`. -/
def fracTcpFlow : TCPFlowSrc :=
  { id := "flow-frac", clientConn := none, serverConn := none,
    messages := [], timestampStart := 1000,
    timestampEnd := some (1000 + 1 / 2000), error := none, live := false }

/-- A DNS flow whose response (and its message) is present. -/
def sampleDnsFlow : DNSFlowSrc :=
  { id := "flow-dns"
    request := some { content := [1, 2], questions := [], answers := [],
                      authorities := [], additionals := [], id := 7,
                      query := true, opCode := 0, authoritativeAnswer := false }
    response := some { content := [3, 4], questions := [], answers := [],
                       authorities := [], additionals := [], id := 7,
                       query := false, opCode := 0, authoritativeAnswer := true }
    timestampStart := 1000
    clientConn := none, serverConn := none, error := none, live := false }

/-! ## Helper lemmas -/

/-- `flow_generator` yields exactly the events queued before the terminal
marker, in queue order. -/
theorem flowGenerator_drain (es : List ExportFlowRequest)
    (tail : List (Option ExportFlowRequest)) :
    flowGenerator (es.map some ++ none :: tail) = es := by
  induction es with
  | nil => rfl
  | cons e rest ih => simpa [flowGenerator] using ih

/-- Membership characterisation of `isEventEnabled`. -/
theorem isEventEnabled_iff (eventTypes : List String) (category : String) :
    isEventEnabled eventTypes category = true ↔
      "all" ∈ eventTypes ∨ category ∈ eventTypes := by
  simp [isEventEnabled, List.elem_iff]

/-! ## Claim theorems -/

/-- C7: the filter predicate `_is_event_enabled(category)` returns true
iff `"all"` is in the configured set or `category` itself is; with
configured set `{"response","tcp_start"}` it accepts `"response"` and
rejects `"dns_request"`, and with `{"all"}` it accepts every category. -/
theorem filter_is_enabled_correct :
    (∀ (eventTypes : List String) (category : String),
        isEventEnabled eventTypes category = true ↔
          "all" ∈ eventTypes ∨ category ∈ eventTypes) ∧
    isEventEnabled ["response", "tcp_start"] "response" = true ∧
    isEventEnabled ["response", "tcp_start"] "dns_request" = false ∧
    (∀ category : String, isEventEnabled ["all"] category = true) := by
  refine ⟨isEventEnabled_iff, by decide, by decide, fun category => ?_⟩
  simp [isEventEnabled]

/-- C9 counterexample: the `grpc_addr` option does not default to
`"127.0.0.1:50051"` — its default carries an `http://` scheme prefix. -/
theorem config_default_addr_counterexample :
    grpcAddrDefault ≠ "127.0.0.1:50051" := by decide

/-- C9 (amended): the collector address option defaults to
`"http://127.0.0.1:50051"` and the enabled-categories option defaults to
`"all"`, so with no configuration every category is forwarded. -/
theorem config_defaults :
    grpcAddrDefault = "http://127.0.0.1:50051" ∧
    grpcEventsDefault = "all" ∧
    updateEvents grpcEventsDefault = ["all"] ∧
    (∀ category : String,
        isEventEnabled (updateEvents grpcEventsDefault) category = true) := by
  refine ⟨rfl, rfl, by decide, fun category => ?_⟩
  have h : updateEvents grpcEventsDefault = ["all"] := by decide
  rw [h]
  simp [isEventEnabled]

/-- C10: `to_grpc_dns_flow` never sets `duration_ms` — for every DNS
flow, including one whose response is present, the canonical DNSFlow
leaves the field unset. -/
theorem dns_flow_no_duration :
    (∀ flow : DNSFlowSrc, (toGrpcDnsFlow flow).durationMs = none) ∧
    (sampleDnsFlow.response).isSome = true ∧
    (toGrpcDnsFlow sampleDnsFlow).durationMs = none :=
  ⟨fun _ => rfl, rfl, rfl⟩

/-- C5: FIFO delivery — for any sequence of canonical events enqueued in
order, the request stream fed to the collector yields exactly that
sequence in enqueue order (no reordering, duplication, or skipping)
before the terminal marker. -/
theorem fifo_delivery (es : List ExportFlowRequest)
    (tail : List (Option ExportFlowRequest)) :
    flowGenerator (es.map some ++ none :: tail) = es :=
  flowGenerator_drain es tail

/-- C4: shutdown drains the queue before closing the transport — with N
events queued when the terminal marker is enqueued, the export task sends
all N in order and completes, and the transport close action comes only
after task completion. -/
theorem shutdown_drains_before_close (es : List ExportFlowRequest) :
    doneTrace es =
      es.map TraceAct.send ++
        [TraceAct.logResponse, TraceAct.taskComplete, TraceAct.closeTransport] := by
  have h : es.map some ++ [none] =
      es.map some ++ (none : Option ExportFlowRequest) :: [] := rfl
  simp [doneTrace, exportLoop, h, flowGenerator_drain]

/-- Unmatched nonempty strings (and the falsy empty string) leave the
TLS version unset. -/
theorem mapTlsVersionStr_unknown (v : String)
    (h : v ∉ (["TLSv1.3", "TLSv1.2", "TLSv1.1", "TLSv1", "SSLv3"] : List String)) :
    mapTlsVersionStr (some v) = none := by
  simp only [List.mem_cons, List.not_mem_nil, or_false, not_or] at h
  obtain ⟨h1, h2, h3, h4, h5⟩ := h
  by_cases he : v = ""
  · simp [mapTlsVersionStr, he]
  · simp [mapTlsVersionStr, he, h1, h2, h3, h4, h5]

/-- C2: the TLS-version mapping is total and exact for both connection
normalizers — the five known strings map to their enumerants, and every
other value of `conn.tls_version` (unknown string, empty string, or
absent) leaves the `tls_version` field unset. -/
theorem tls_version_mapping_total :
    (∀ conn : ClientConnSrc,
      (conn.tlsVersion = some "TLSv1.3" →
        (toGrpcClientConn conn).tlsVersion = some TLSVersion.tlsV1_3) ∧
      (conn.tlsVersion = some "TLSv1.2" →
        (toGrpcClientConn conn).tlsVersion = some TLSVersion.tlsV1_2) ∧
      (conn.tlsVersion = some "TLSv1.1" →
        (toGrpcClientConn conn).tlsVersion = some TLSVersion.tlsV1_1) ∧
      (conn.tlsVersion = some "TLSv1" →
        (toGrpcClientConn conn).tlsVersion = some TLSVersion.tlsV1) ∧
      (conn.tlsVersion = some "SSLv3" →
        (toGrpcClientConn conn).tlsVersion = some TLSVersion.sslV3) ∧
      (∀ v : String, conn.tlsVersion = some v →
        v ∉ (["TLSv1.3", "TLSv1.2", "TLSv1.1", "TLSv1", "SSLv3"] : List String) →
        (toGrpcClientConn conn).tlsVersion = none) ∧
      (conn.tlsVersion = none → (toGrpcClientConn conn).tlsVersion = none)) ∧
    (∀ conn : ServerConnSrc,
      (conn.tlsVersion = some "TLSv1.3" →
        (toGrpcServerConn conn).tlsVersion = some TLSVersion.tlsV1_3) ∧
      (conn.tlsVersion = some "TLSv1.2" →
        (toGrpcServerConn conn).tlsVersion = some TLSVersion.tlsV1_2) ∧
      (conn.tlsVersion = some "TLSv1.1" →
        (toGrpcServerConn conn).tlsVersion = some TLSVersion.tlsV1_1) ∧
      (conn.tlsVersion = some "TLSv1" →
        (toGrpcServerConn conn).tlsVersion = some TLSVersion.tlsV1) ∧
      (conn.tlsVersion = some "SSLv3" →
        (toGrpcServerConn conn).tlsVersion = some TLSVersion.sslV3) ∧
      (∀ v : String, conn.tlsVersion = some v →
        v ∉ (["TLSv1.3", "TLSv1.2", "TLSv1.1", "TLSv1", "SSLv3"] : List String) →
        (toGrpcServerConn conn).tlsVersion = none) ∧
      (conn.tlsVersion = none → (toGrpcServerConn conn).tlsVersion = none)) := by
  constructor
  · intro conn
    have hfield : (toGrpcClientConn conn).tlsVersion =
        mapTlsVersionStr conn.tlsVersion := rfl
    refine ⟨?_, ?_, ?_, ?_, ?_, ?_, ?_⟩ <;>
      first
        | (intro h; rw [hfield, h]; decide)
        | (intro v hv hnot; rw [hfield, hv];
           exact mapTlsVersionStr_unknown v hnot)
  · intro conn
    have hfield : (toGrpcServerConn conn).tlsVersion =
        mapTlsVersionStr conn.tlsVersion := rfl
    refine ⟨?_, ?_, ?_, ?_, ?_, ?_, ?_⟩ <;>
      first
        | (intro h; rw [hfield, h]; decide)
        | (intro v hv hnot; rw [hfield, hv];
           exact mapTlsVersionStr_unknown v hnot)

/-- C2 witness: a client connection reporting the unknown version
`"TLSv2"` gets no TLS version in its canonical record. -/
theorem tls_version_mapping_total_witness :
    (toGrpcClientConn sampleClientConn).tlsVersion = none :=
  (tls_version_mapping_total.1 sampleClientConn).2.2.2.2.2.1 "TLSv2" rfl
    (by decide)

/-- C1: the claim that every event category is gated before
normalization fails in the source — the `websocket_start`,
`websocket_message` and `websocket_end` callbacks never consult
`_is_event_enabled` and enqueue unconditionally. With configured
categories `{"response"}` (so the websocket categories are disabled and
`"all"` is not configured) each websocket callback still enqueues one
canonical event, while the gated `requestheaders` callback returns
leaving the state untouched. -/
theorem websocket_callbacks_bypass_filter :
    isEventEnabled sampleGatedState.eventTypes "websocket_start" = false ∧
    isEventEnabled sampleGatedState.eventTypes "websocket_message" = false ∧
    isEventEnabled sampleGatedState.eventTypes "websocket_end" = false ∧
    ((websocketStartCb sampleGatedState sampleWsHttpFlow).map
        (fun st => st.queue.length)) = some 1 ∧
    ((websocketMessageCb sampleGatedState sampleWsHttpFlow).map
        (fun st => st.queue.length)) = some 1 ∧
    ((websocketEndCb sampleGatedState sampleWsHttpFlow).map
        (fun st => st.queue.length)) = some 1 ∧
    requestheadersCb sampleGatedState sampleWsHttpFlow = some sampleGatedState := by
  refine ⟨by decide, by decide, by decide, by decide, by decide, by decide, by decide⟩

/-- C6: the reconnect loop of `_export_flows` — every failed attempt is
logged and followed by a fixed 5-second delay (no backoff growth), any
number of consecutive failures keeps the loop retrying with the queue
intact, the loop completes only on an accepted stream, and in the
reject-then-accept scenario all events still queued are delivered on the
second attempt. -/
theorem reconnect_retry_loop :
    (∀ (q : List (Option ExportFlowRequest)) (n : Nat),
        exportLoop (List.replicate n Attempt.reject ++ [Attempt.accept]) q =
          (List.replicate n [TraceAct.logError, TraceAct.sleep 5]).flatten ++
            ((flowGenerator q).map TraceAct.send ++ [TraceAct.logResponse])) ∧
    (∀ (script : List Attempt) (q : List (Option ExportFlowRequest)) (s : Nat),
        TraceAct.sleep s ∈ exportLoop script q → s = 5) ∧
    (∀ (script : List Attempt) (q : List (Option ExportFlowRequest)),
        TraceAct.logResponse ∈ exportLoop script q → Attempt.accept ∈ script) ∧
    (∀ es : List ExportFlowRequest,
        exportLoop [Attempt.reject, Attempt.accept] (es.map some ++ [none]) =
          TraceAct.logError :: TraceAct.sleep 5 ::
            (es.map TraceAct.send ++ [TraceAct.logResponse])) := by
  refine ⟨?_, ?_, ?_, ?_⟩
  · intro q n
    induction n with
    | zero => simp [exportLoop]
    | succ m ih => simp [List.replicate_succ, exportLoop, ih]
  · intro script q s
    induction script with
    | nil => intro h; simp [exportLoop] at h
    | cons a rest ih =>
      intro h
      cases a with
      | reject =>
        simp only [exportLoop, List.mem_cons] at h
        rcases h with h | h | h
        · exact absurd h (by simp)
        · simpa using h
        · exact ih h
      | accept =>
        simp only [exportLoop, List.mem_append, List.mem_map,
          List.mem_cons, List.not_mem_nil, or_false] at h
        rcases h with ⟨e, _, he⟩ | h
        · exact absurd he (by simp)
        · exact absurd h (by simp)
  · intro script q
    induction script with
    | nil => intro h; simp [exportLoop] at h
    | cons a rest ih =>
      intro h
      cases a with
      | reject =>
        simp only [exportLoop, List.mem_cons] at h
        rcases h with h | h | h
        · exact absurd h (by simp)
        · exact absurd h (by simp)
        · exact List.mem_cons_of_mem _ (ih h)
      | accept => exact List.mem_cons_self _ _
  · intro es
    have h : es.map some ++ [none] =
        es.map some ++ (none : Option ExportFlowRequest) :: [] := rfl
    simp [exportLoop, h, flowGenerator_drain]

/-- C6 witness: with the collector rejecting the first attempt and
accepting the second, the loop completion action occurs and indeed an
accepted attempt is in the script. -/
theorem reconnect_retry_loop_witness :
    Attempt.accept ∈ [Attempt.reject, Attempt.accept] :=
  reconnect_retry_loop.2.2.1 [Attempt.reject, Attempt.accept] [none] (by decide)

/-- A truthy `pyTruthyTime` result reveals the underlying timestamp. -/
theorem pyTruthyTime_eq_some {x : Option ℚ} {t : ℚ}
    (h : pyTruthyTime x = some t) : x = some t := by
  cases x with
  | none => simp [pyTruthyTime] at h
  | some a =>
    simp only [pyTruthyTime] at h
    by_cases ha : a = 0
    · rw [if_pos ha] at h; cases h
    · rw [if_neg ha] at h; exact h

/-- Positive timestamps are truthy. -/
theorem pyTruthyTime_pos {t : ℚ} (ht : 0 < t) :
    pyTruthyTime (some t) = some t := by
  simp [pyTruthyTime, ne_of_gt ht]

/-- `to_grpc_flow` leaves `duration_ms` unset when there is no response. -/
theorem toGrpcFlow_durationMs_noResponse (flow : HTTPFlowSrc) (g : HTTPFlowG)
    (hg : toGrpcFlow flow = some g) (hresp : flow.response = none) :
    g.durationMs = none := by
  unfold toGrpcFlow at hg
  cases hreq : toGrpcRequest flow.request with
  | none => rw [hreq] at hg; cases hg
  | some req =>
    simp only [hreq, hresp, Option.some_bind, Option.map_some, Option.map_some',
      Option.some.injEq] at hg
    subst hg
    rfl

/-- `to_grpc_flow` leaves `duration_ms` unset when the response terminal
timestamp is falsy. -/
theorem toGrpcFlow_durationMs_noEnd (flow : HTTPFlowSrc) (g : HTTPFlowG)
    (r : HTTPResponseSrc) (hg : toGrpcFlow flow = some g)
    (hresp : flow.response = some r)
    (hte : pyTruthyTime r.timestampEnd = none) :
    g.durationMs = none := by
  unfold toGrpcFlow at hg
  cases hreq : toGrpcRequest flow.request with
  | none => rw [hreq] at hg; cases hg
  | some req =>
    cases hr : toGrpcResponse r with
    | none => simp [hreq, hresp, hr] at hg
    | some resp =>
      simp only [hreq, hresp, hr, Option.some_bind, Option.map_some, Option.map_some',
        Option.some.injEq] at hg
      subst hg
      show (match pyTruthyTime r.timestampEnd with
            | some te => some ((te - flow.timestampStart) * 1000)
            | none => none) = none
      rw [hte]

/-- `to_grpc_flow` sets `duration_ms` to the millisecond difference when
the response terminal timestamp is truthy. -/
theorem toGrpcFlow_durationMs_set (flow : HTTPFlowSrc) (g : HTTPFlowG)
    (r : HTTPResponseSrc) (te : ℚ) (hg : toGrpcFlow flow = some g)
    (hresp : flow.response = some r)
    (hte : pyTruthyTime r.timestampEnd = some te) :
    g.durationMs = some ((te - flow.timestampStart) * 1000) := by
  unfold toGrpcFlow at hg
  cases hreq : toGrpcRequest flow.request with
  | none => rw [hreq] at hg; cases hg
  | some req =>
    cases hr : toGrpcResponse r with
    | none => simp [hreq, hresp, hr] at hg
    | some resp =>
      simp only [hreq, hresp, hr, Option.some_bind, Option.map_some, Option.map_some',
        Option.some.injEq] at hg
      subst hg
      show (match pyTruthyTime r.timestampEnd with
            | some x => some ((x - flow.timestampStart) * 1000)
            | none => none) = some ((te - flow.timestampStart) * 1000)
      rw [hte]

/-- The `duration_ms` field produced by `to_grpc_tcp_flow`. -/
theorem toGrpcTcpFlow_durationMs_noEnd (flow : TCPFlowSrc)
    (hte : pyTruthyTime flow.timestampEnd = none) :
    (toGrpcTcpFlow flow).durationMs = none := by
  show (match pyTruthyTime flow.timestampEnd with
        | some te => some ((te - flow.timestampStart) * 1000)
        | none => none) = none
  rw [hte]

/-- `to_grpc_tcp_flow` sets `duration_ms` to the millisecond difference
when the flow end timestamp is truthy. -/
theorem toGrpcTcpFlow_durationMs_set (flow : TCPFlowSrc) (te : ℚ)
    (hte : pyTruthyTime flow.timestampEnd = some te) :
    (toGrpcTcpFlow flow).durationMs =
      some ((te - flow.timestampStart) * 1000) := by
  show (match pyTruthyTime flow.timestampEnd with
        | some x => some ((x - flow.timestampStart) * 1000)
        | none => none) = some ((te - flow.timestampStart) * 1000)
  rw [hte]

/-- C3 (amended): for HTTP and TCP flows with well-formed timestamps
(positive start, terminal end not before start), `duration_ms` is set iff
the terminal timestamp exists; when set it equals the exact difference in
milliseconds, `(end - start) * 1000`, which is non-negative — and on the
spec worked example (start `1000 s`, response end `1002.5 s`) it is
`2500`. (The value is the exact rational difference, not necessarily an
integer.) -/
theorem duration_ms_correct :
    (∀ (flow : HTTPFlowSrc) (g : HTTPFlowG),
        toGrpcFlow flow = some g →
        0 < flow.timestampStart →
        (∀ r te, flow.response = some r → r.timestampEnd = some te →
            flow.timestampStart ≤ te) →
        ((g.durationMs.isSome ↔
            ∃ r, flow.response = some r ∧ r.timestampEnd.isSome) ∧
         ∀ r te, flow.response = some r → r.timestampEnd = some te →
            g.durationMs = some ((te - flow.timestampStart) * 1000) ∧
            0 ≤ (te - flow.timestampStart) * 1000)) ∧
    (∀ flow : TCPFlowSrc,
        0 < flow.timestampStart →
        (∀ te, flow.timestampEnd = some te → flow.timestampStart ≤ te) →
        (((toGrpcTcpFlow flow).durationMs.isSome ↔ flow.timestampEnd.isSome) ∧
         ∀ te, flow.timestampEnd = some te →
            (toGrpcTcpFlow flow).durationMs =
              some ((te - flow.timestampStart) * 1000) ∧
            0 ≤ (te - flow.timestampStart) * 1000)) ∧
    (toGrpcFlow sampleDurationHttpFlow).map (fun g => g.durationMs) =
      some (some 2500) := by
  refine ⟨?_, ?_, ?_⟩
  · intro flow g hg h0 hle
    constructor
    · constructor
      · intro hsome
        cases hresp : flow.response with
        | none =>
          rw [toGrpcFlow_durationMs_noResponse flow g hg hresp] at hsome
          cases hsome
        | some r =>
          cases hte : pyTruthyTime r.timestampEnd with
          | none =>
            rw [toGrpcFlow_durationMs_noEnd flow g r hg hresp hte] at hsome
            cases hsome
          | some te =>
            exact ⟨r, rfl, by rw [pyTruthyTime_eq_some hte]; rfl⟩
      · rintro ⟨r, hresp, hend⟩
        obtain ⟨te, hte⟩ := Option.isSome_iff_exists.mp hend
        have hpos : 0 < te := lt_of_lt_of_le h0 (hle r te hresp hte)
        rw [toGrpcFlow_durationMs_set flow g r te hg hresp
          (by rw [hte]; exact pyTruthyTime_pos hpos)]
        rfl
    · intro r te hresp hte
      have hpos : 0 < te := lt_of_lt_of_le h0 (hle r te hresp hte)
      refine ⟨toGrpcFlow_durationMs_set flow g r te hg hresp
        (by rw [hte]; exact pyTruthyTime_pos hpos), ?_⟩
      have hsub : 0 ≤ te - flow.timestampStart :=
        sub_nonneg.mpr (hle r te hresp hte)
      positivity
  · intro flow h0 hle
    constructor
    · constructor
      · intro hsome
        cases hte : pyTruthyTime flow.timestampEnd with
        | none =>
          rw [toGrpcTcpFlow_durationMs_noEnd flow hte] at hsome
          cases hsome
        | some te => rw [pyTruthyTime_eq_some hte]; rfl
      · intro hend
        obtain ⟨te, hte⟩ := Option.isSome_iff_exists.mp hend
        have hpos : 0 < te := lt_of_lt_of_le h0 (hle te hte)
        rw [toGrpcTcpFlow_durationMs_set flow te
          (by rw [hte]; exact pyTruthyTime_pos hpos)]
        rfl
    · intro te hte
      have hpos : 0 < te := lt_of_lt_of_le h0 (hle te hte)
      refine ⟨toGrpcTcpFlow_durationMs_set flow te
        (by rw [hte]; exact pyTruthyTime_pos hpos), ?_⟩
      have hsub : 0 ≤ te - flow.timestampStart := sub_nonneg.mpr (hle te hte)
      positivity
  · have hne : ((2005 : ℚ) / 2) ≠ 0 := by norm_num
    simp only [toGrpcFlow, sampleDurationHttpFlow, toGrpcRequest,
      toGrpcResponse, sanitizePairs, pyTruthyTime, List.mapM_nil]
    norm_num

/-- C3 witness: the TCP clause applied to the concrete flow with start
`1000 s` and end `1003 s` yields `duration_ms = 3000 ≥ 0`. -/
theorem duration_ms_correct_witness :
    (toGrpcTcpFlow sampleTcpFlow).durationMs =
        some (((1003 : ℚ) - 1000) * 1000) ∧
    0 ≤ (((1003 : ℚ) - 1000) * 1000) :=
  (duration_ms_correct.2.1 sampleTcpFlow (by decide)
      (fun te h => by
        have hte : (1003 : ℚ) = te := Option.some.inj h
        rw [← hte]; decide)).2 1003 rfl

/-- C3 counterexample: `duration_ms` is not always an integer value — a
TCP flow lasting half a millisecond (start `1000 s`, end
`1000 s + 1/2000 s`) gets `duration_ms = 1/2`, which equals no integer. -/
theorem duration_ms_not_integer :
    (toGrpcTcpFlow fracTcpFlow).durationMs = some (1 / 2) ∧
    ¬ ∃ n : ℤ, ((1 : ℚ) / 2) = (n : ℚ) := by
  constructor
  · have hne : (1000 + (1 : ℚ) / 2000) ≠ 0 := by norm_num
    simp only [toGrpcTcpFlow, fracTcpFlow, pyTruthyTime, if_neg hne]
    norm_num
  · rintro ⟨n, hn⟩
    have h2 : (1 : ℚ) = 2 * (n : ℚ) := by
      field_simp at hn
      linarith
    have h3 : (1 : ℤ) = 2 * n := by exact_mod_cast h2
    omega

/-- A code point outside the surrogate range is not a surrogate. -/
theorem isSurrogate_eq_false {c : Nat} (h : c < 0xD800 ∨ 0xE000 ≤ c) :
    isSurrogate c = false := by
  simp only [isSurrogate, Bool.and_eq_false_iff, decide_eq_false_iff_not,
    not_le, not_lt]
  omega

/-- Bytes in `[0x80, 0xC0)` are continuation bytes. -/
theorem isCont_eq_true {b : Nat} (h1 : 0x80 ≤ b) (h2 : b < 0xC0) :
    isCont b = true := by
  simp only [isCont, Bool.and_eq_true, decide_eq_true_eq]
  omega

/-- Replacing an encodable code point is the identity. -/
theorem sanitizeChar_id {c : Nat} (h : isSurrogate c = false) :
    sanitizeChar c = c := by
  simp [sanitizeChar, h]

/-- Sanitized code points stay below `0x110000`. -/
theorem sanitizeChar_lt {c : Nat} (h : c < 0x110000) :
    sanitizeChar c < 0x110000 := by
  unfold sanitizeChar
  split <;> omega

/-- Sanitized code points are never surrogates. -/
theorem sanitizeChar_not_surrogate (c : Nat) :
    isSurrogate (sanitizeChar c) = false := by
  unfold sanitizeChar
  by_cases hs : isSurrogate c = true
  · rw [if_pos hs]
    exact isSurrogate_eq_false (by omega)
  · rw [if_neg hs]
    simpa using hs

/-- Strict UTF-8 decoding inverts `replace`-encoding one code point at a
time: the decoder consumes the bytes of `utf8EncodeCharReplace c` and
yields `sanitizeChar c` in front of whatever the remaining bytes decode
to. -/
theorem utf8DecAux_encodeCharReplace (c : Nat) (hc : c < 0x110000)
    (bs : List Nat) :
    utf8DecAux (utf8EncodeCharReplace c ++ bs) Utf8State.boundary =
      (utf8DecAux bs Utf8State.boundary).map
        (fun cs => sanitizeChar c :: cs) := by
  by_cases h1 : c < 0x80
  · have hs : isSurrogate c = false := isSurrogate_eq_false (by omega)
    simp only [utf8EncodeCharReplace, if_pos h1, List.cons_append,
      List.nil_append]
    rw [utf8DecAux]
    simp only [if_pos h1, sanitizeChar, hs, Bool.false_eq_true, if_false]
  · by_cases h2 : c < 0x800
    · have hs : isSurrogate c = false := isSurrogate_eq_false (by omega)
      have e1 : ¬ (0xC0 + c / 0x40 < 0x80) := by omega
      have e2 : ¬ (0xC0 + c / 0x40 < 0xC2) := by omega
      have e3 : 0xC0 + c / 0x40 < 0xE0 := by omega
      have e4 : isCont (0x80 + c % 0x40) = true :=
        isCont_eq_true (by omega) (by omega)
      have eacc : (0xC0 + c / 0x40 - 0xC0) * 0x40 + (0x80 + c % 0x40 - 0x80) =
          c := by omega
      have echk : (0x80 : Nat) ≤ c ∧ c < 0x110000 ∧ isSurrogate c = false :=
        ⟨by omega, by omega, hs⟩
      simp only [utf8EncodeCharReplace, if_neg h1, if_pos h2, List.cons_append,
        List.nil_append]
      rw [utf8DecAux]
      simp only [if_neg e1, if_neg e2, if_pos e3]
      rw [utf8DecAux]
      simp only [e4, if_true, eacc, if_pos rfl]
      rw [if_pos echk]
      simp only [sanitizeChar, hs, Bool.false_eq_true, if_false]
    · by_cases h3 : c < 0x10000
      · by_cases hs : isSurrogate c = true
        · simp only [utf8EncodeCharReplace, if_neg h1, if_neg h2, if_pos h3,
            if_pos hs, List.cons_append, List.nil_append]
          rw [utf8DecAux]
          have h63 : (0x3F : Nat) < 0x80 := by omega
          simp only [if_pos h63, sanitizeChar, hs, if_true]
        · have hs' : isSurrogate c = false := by simpa using hs
          have e1 : ¬ (0xE0 + c / 0x1000 < 0x80) := by omega
          have e2 : ¬ (0xE0 + c / 0x1000 < 0xC2) := by omega
          have e3 : ¬ (0xE0 + c / 0x1000 < 0xE0) := by omega
          have e4 : 0xE0 + c / 0x1000 < 0xF0 := by omega
          have e5 : isCont (0x80 + (c / 0x40) % 0x40) = true :=
            isCont_eq_true (by omega) (by omega)
          have e6 : isCont (0x80 + c % 0x40) = true :=
            isCont_eq_true (by omega) (by omega)
          have eacc : (0xE0 + c / 0x1000 - 0xE0) * 0x40 +
              (0x80 + (c / 0x40) % 0x40 - 0x80) = c / 0x40 := by omega
          have eacc2 : c / 0x40 * 0x40 + (0x80 + c % 0x40 - 0x80) = c := by
            omega
          have echk : (0x800 : Nat) ≤ c ∧ c < 0x110000 ∧
              isSurrogate c = false := ⟨by omega, by omega, hs'⟩
          have hne : ¬ ((2 : Nat) = 1) := by omega
          simp only [utf8EncodeCharReplace, if_neg h1, if_neg h2, if_pos h3,
            hs', Bool.false_eq_true, if_false, List.cons_append,
            List.nil_append]
          rw [utf8DecAux]
          simp only [if_neg e1, if_neg e2, if_neg e3, if_pos e4]
          rw [utf8DecAux]
          simp only [e5, if_true, if_neg hne, eacc]
          rw [utf8DecAux]
          simp only [e6, if_true, eacc2, if_pos rfl]
          rw [if_pos echk]
          simp only [sanitizeChar, hs', Bool.false_eq_true, if_false]
      · have hs : isSurrogate c = false := isSurrogate_eq_false (by omega)
        have e1 : ¬ (0xF0 + c / 0x40000 < 0x80) := by omega
        have e2 : ¬ (0xF0 + c / 0x40000 < 0xC2) := by omega
        have e3 : ¬ (0xF0 + c / 0x40000 < 0xE0) := by omega
        have e4 : ¬ (0xF0 + c / 0x40000 < 0xF0) := by omega
        have e5 : 0xF0 + c / 0x40000 < 0xF5 := by omega
        have e6 : isCont (0x80 + (c / 0x1000) % 0x40) = true :=
          isCont_eq_true (by omega) (by omega)
        have e7 : isCont (0x80 + (c / 0x40) % 0x40) = true :=
          isCont_eq_true (by omega) (by omega)
        have e8 : isCont (0x80 + c % 0x40) = true :=
          isCont_eq_true (by omega) (by omega)
        have eacc : (0xF0 + c / 0x40000 - 0xF0) * 0x40 +
            (0x80 + (c / 0x1000) % 0x40 - 0x80) = c / 0x1000 := by omega
        have eacc2 : c / 0x1000 * 0x40 + (0x80 + (c / 0x40) % 0x40 - 0x80) =
            c / 0x40 := by omega
        have eacc3 : c / 0x40 * 0x40 + (0x80 + c % 0x40 - 0x80) = c := by
          omega
        have echk : (0x10000 : Nat) ≤ c ∧ c < 0x110000 ∧
            isSurrogate c = false := ⟨by omega, by omega, hs⟩
        have hne3 : ¬ ((3 : Nat) = 1) := by omega
        have hne2 : ¬ ((2 : Nat) = 1) := by omega
        have h31 : (3 : Nat) - 1 = 2 := by omega
        simp only [utf8EncodeCharReplace, if_neg h1, if_neg h2, if_neg h3,
          List.cons_append, List.nil_append]
        rw [utf8DecAux]
        simp only [if_neg e1, if_neg e2, if_neg e3, if_neg e4, if_pos e5]
        rw [utf8DecAux]
        simp only [e6, if_true, if_neg hne3, h31, eacc]
        rw [utf8DecAux]
        simp only [e7, if_true, if_neg hne2, eacc2]
        rw [utf8DecAux]
        simp only [e8, if_true, eacc3, if_pos rfl]
        rw [if_pos echk]
        simp only [sanitizeChar, hs, Bool.false_eq_true, if_false]

/-- Sanitization always succeeds on Python strings (code points below
`0x110000`) and acts as `sanitizeChar` on each code point. -/
theorem sanitizeValue_eq_map (v : List Nat) (h : ∀ c ∈ v, c < 0x110000) :
    sanitizeValue v = some (List.map sanitizeChar v) := by
  induction v with
  | nil => rfl
  | cons c rest ih =>
    have hc : c < 0x110000 := h c (List.mem_cons_self c rest)
    have hrest : ∀ x ∈ rest, x < 0x110000 := fun x hx =>
      h x (List.mem_cons_of_mem c hx)
    have hstep : sanitizeValue (c :: rest) =
        (sanitizeValue rest).map (fun cs => sanitizeChar c :: cs) :=
      utf8DecAux_encodeCharReplace c hc (utf8EncodeReplace rest)
    rw [hstep, ih hrest, Option.map_some', List.map_cons]

/-- Sanitization fixes lists without surrogates. -/
theorem map_sanitizeChar_id (v : List Nat)
    (hv : ∀ c ∈ v, isSurrogate c = false) :
    List.map sanitizeChar v = v := by
  induction v with
  | nil => rfl
  | cons c rest ih =>
    rw [List.map_cons, sanitizeChar_id (hv c (List.mem_cons_self c rest)),
      ih (fun x hx => hv x (List.mem_cons_of_mem c hx))]

/-- C8: header/trailer sanitization — `encode('utf-8','replace')`
followed by strict `decode('utf-8')` — is the identity on values that are
already valid transportable text (no surrogate code points), and applying
it twice yields the same result as applying it once on every Python
string. -/
theorem sanitize_idempotent :
    (∀ v : List Nat, (∀ c ∈ v, c < 0x110000) →
        (∀ c ∈ v, isSurrogate c = false) → sanitizeValue v = some v) ∧
    (∀ v w : List Nat, (∀ c ∈ v, c < 0x110000) →
        sanitizeValue v = some w → sanitizeValue w = some w) := by
  constructor
  · intro v h1 h2
    rw [sanitizeValue_eq_map v h1, map_sanitizeChar_id v h2]
  · intro v w h1 hw
    rw [sanitizeValue_eq_map v h1] at hw
    have hw2 : w = List.map sanitizeChar v := (Option.some.inj hw).symm
    subst hw2
    have h1w : ∀ c ∈ List.map sanitizeChar v, c < 0x110000 := by
      intro c hc
      obtain ⟨x, hx, rfl⟩ := List.mem_map.mp hc
      exact sanitizeChar_lt (h1 x hx)
    have h2w : ∀ c ∈ List.map sanitizeChar v, isSurrogate c = false := by
      intro c hc
      obtain ⟨x, hx, rfl⟩ := List.mem_map.mp hc
      exact sanitizeChar_not_surrogate x
    rw [sanitizeValue_eq_map _ h1w, map_sanitizeChar_id _ h2w]

/-- C8 witness: sanitizing `"H\uD800"` (a valid char followed by a lone
surrogate) yields `"H?"`, and re-sanitizing `"H?"` leaves it unchanged. -/
theorem sanitize_idempotent_witness :
    sanitizeValue [72, 63] = some [72, 63] :=
  sanitize_idempotent.2 [72, 0xD800] [72, 63] (by decide) (by decide)

end Mitmflow
